import Mathlib

/-!
# Verification of the metrics layer of the TSMC trading dashboard

Shallow embedding of the two metric-computing classes of the repository:

* `DashboardDataLoader` (src/src/data_loader.py), embedded in namespace `DataLoader`;
* `DashboardMetrics`   (src/src/metrics.py),     embedded in namespace `Metrics`.

Modelling conventions:

* Equity curves, returns series and pnl values are `List ℚ` / `ℚ`: every float the
  code manipulates on the claim-relevant paths is an exact rational function of the
  inputs, except the annualization power and the square roots, handled below.
* `pandas.Series.std()` uses `ddof = 1`: on a series of length `< 2` it is IEEE NaN.
  We embed the variance as `sampleVar? : List ℚ → Option ℚ`, `none` standing for NaN.
  A NaN standard deviation makes every comparison (`== 0`, `> 0`) false, which is
  exactly how `Option` pattern matching is used below.
* Values that are irrational in general (Sharpe, Sortino, volatility) are embedded
  exactly in the small value language `MVal`: `MVal.sqrtRatio a b` denotes the float
  `a / sqrt b` and `MVal.sqrtOf b` denotes `sqrt b`; `MVal.inf` is `float('inf')`,
  `MVal.nan` is IEEE NaN, `MVal.num q` a float holding exactly the rational `q`.
* The annualized return `(1 + total_return) ** (252 / n) - 1` is embedded over `ℝ`
  with `Real.rpow`.
* File-reading paths are embedded by taking the decoded content as input:
  an `Option` input (`none` = file absent), a `List` of records (possibly empty).
* Optional JSON fields read with `dict.get(key, default)` are `Option` fields read
  with `Option.getD`.
-/

/-- Exact model of the float values produced by the metrics layer.
`num q` is a float holding exactly the rational `q`; `inf` is `float('inf')`;
`nan` is IEEE NaN; `sqrtRatio a b` is the finite irrational value `a / Real.sqrt b`
(with `b > 0` on every reachable branch); `sqrtOf b` is `Real.sqrt b`. -/
inductive MVal where
  | num (q : ℚ) : MVal
  | inf : MVal
  | nan : MVal
  | sqrtRatio (a b : ℚ) : MVal
  | sqrtOf (b : ℚ) : MVal
deriving DecidableEq

/-- `pandas.Series.mean()`: the arithmetic mean (sum divided by length). -/
def seriesMean (xs : List ℚ) : ℚ :=
  xs.sum / xs.length

/-- `pandas.Series.var()` with the default `ddof = 1` (so `std = sqrt` of this):
`none` models the IEEE NaN produced on a series of fewer than 2 points,
otherwise `some` of the exact sample variance `Σ (x - mean)² / (n - 1)`. -/
def sampleVar? (xs : List ℚ) : Option ℚ :=
  if xs.length < 2 then none
  else some (((xs.map fun x => (x - seriesMean xs) ^ 2).sum) / (xs.length - 1 : ℕ))

/-- `series.pct_change().dropna()`: the list of relative changes between
consecutive points, `(b - a) / a` for each adjacent pair `(a, b)`. -/
def pct_change : List ℚ → List ℚ
  | [] => []
  | [_] => []
  | a :: b :: rest => (b - a) / a :: pct_change (b :: rest)

/-- One trade record of `trade_history.json`.  Only the fields the metrics layer
reads (`action` and `pnl`) are modelled; `date`, `symbol`, `quantity`, `price`
are never consulted by the functions under verification. -/
structure Trade where
  action : String
  pnl : ℚ
deriving DecidableEq

/-- One position record of `portfolio_state.json`; the three numeric fields are
optional in the JSON and read with `dict.get` defaults. -/
structure Position where
  quantity : Option ℚ
  avg_price : Option ℚ
  current_price : Option ℚ
deriving DecidableEq

/-- The decoded content of `portfolio_state.json` (all top-level fields are read
with `dict.get` defaults, hence `Option`). -/
structure PortfolioState where
  cash : Option ℚ
  positions : List (String × Position)
  initial_capital : Option ℚ
deriving DecidableEq

namespace DataLoader

/-- `data_loader.py` lines 35-38: `invested = sum(p.get('quantity', 0) *
p.get('current_price', p.get('avg_price', 0)) for p in positions.values())`. -/
def invested_value (positions : List (String × Position)) : ℚ :=
  (positions.map fun pr =>
    pr.2.quantity.getD 0 * pr.2.current_price.getD (pr.2.avg_price.getD 0)).sum

/-- The record built by `DashboardDataLoader.get_portfolio_status`
(`data_loader.py` lines 42-49 and 51-58; both branches carry the same six keys). -/
structure PortfolioStatus where
  total_equity : ℚ
  cash : ℚ
  invested : ℚ
  positions : List (String × Position)
  total_return_pct : ℚ
  initial_capital : ℚ
deriving DecidableEq

/-- `DashboardDataLoader.get_portfolio_status` (`data_loader.py` lines 25-58).
`none` models the absent `portfolio_state.json` file (lines 51-58);
`some data` the decoded file content (lines 30-49). -/
def get_portfolio_status (state? : Option PortfolioState) : PortfolioStatus :=
  match state? with
  | none =>
    -- lines 51-58: the missing-file fallback record
    ⟨100000, 100000, 0, [], 0, 100000⟩
  | some data =>
    let cash := data.cash.getD 100000
    let positions := data.positions
    let invested := invested_value positions
    let initial := data.initial_capital.getD 100000
    let total_equity := cash + invested
    -- lines 42-49; total_return_pct guarded by `if initial > 0 else 0`
    ⟨total_equity, cash, invested, positions,
      if 0 < initial then (total_equity / initial - 1) * 100 else 0, initial⟩

/-- `DashboardDataLoader._annualize_return` (`data_loader.py` lines 180-187):
`(1 + total_return) ** (252 / num_days) - 1` with
`total_return = (1 + returns).prod() - 1`, 0 on an empty series (both guards of
the source are kept, the second one being unreachable after the first). -/
noncomputable def annualize_return (returns : List ℚ) : ℝ :=
  if returns = [] then 0
  else
    let total_return : ℚ := (returns.map fun r => 1 + r).prod - 1
    if returns.length = 0 then 0
    else (1 + (total_return : ℝ)) ^ ((252 : ℝ) / returns.length) - 1

/-- `DashboardDataLoader._calculate_sharpe` (`data_loader.py` lines 189-192).
Branches of the source: `returns.empty or returns.std() == 0 → 0.0`; an empty
series short-circuits, a one-point series has NaN std (`sampleVar? = none`) so
the `== 0` test is false and `mean / std * sqrt(252)` propagates the NaN;
otherwise the finite value `(mean/σ)·√252 = (252·mean) / √(252·v)` where
`v` is the sample variance (`σ = √v`). -/
def calculate_sharpe (returns : List ℚ) : MVal :=
  if returns = [] then .num 0
  else
    match sampleVar? returns with
    | none => .nan
    | some v =>
      if v = 0 then .num 0
      else .sqrtRatio (252 * seriesMean returns) (252 * v)

/-- `DashboardDataLoader._calculate_sortino` (`data_loader.py` lines 194-200).
`downside = returns[returns < 0]`; `downside.empty or downside.std() == 0 → 0.0`;
a single downside point has NaN std, the `== 0` test is false and
`mean / downside.std() * sqrt(252)` is NaN; otherwise
`(mean/σd)·√252 = (252·mean) / √(252·vd)` with `vd` the downside variance. -/
def calculate_sortino (returns : List ℚ) : MVal :=
  if returns = [] then .num 0
  else
    let downside := returns.filter fun r => r < 0
    if downside = [] then .num 0
    else
      match sampleVar? downside with
      | none => .nan
      | some vd =>
        if vd = 0 then .num 0
        else .sqrtRatio (252 * seriesMean returns) (252 * vd)

/-- The per-point drawdowns `(e - m') / m'` against the running maximum,
`m'` being the maximum seen so far (seeded with `m`); this is
`(equity - equity.expanding().max()) / equity.expanding().max()` of
`data_loader.py` lines 205-206. -/
def drawdownsFrom (m : ℚ) : List ℚ → List ℚ
  | [] => []
  | e :: rest =>
    let m' := max m e
    (e - m') / m' :: drawdownsFrom m' rest

/-- The full drawdown series of an equity curve (running maximum seeded by the
first point, as `expanding().max()` does). -/
def drawdown_list : List ℚ → List ℚ
  | [] => []
  | e :: rest => drawdownsFrom e (e :: rest)

/-- `DashboardDataLoader._calculate_max_drawdown` (`data_loader.py` lines
202-207): 0 on an empty curve, otherwise the minimum of the drawdown series. -/
def calculate_max_drawdown (equity : List ℚ) : ℚ :=
  match drawdown_list equity with
  | [] => 0
  | d :: ds => ds.foldl min d

/-- `DashboardDataLoader._calculate_win_rate` (`data_loader.py` lines 209-214),
taking the decoded trade list as input (an empty list models both an empty /
absent `trade_history.json` and a frame without a `pnl` column):
`len(trades[trades['pnl'] > 0]) / len(trades)` over ALL trades. -/
def calculate_win_rate (trades : List Trade) : ℚ :=
  if trades = [] then 0
  else ((trades.filter fun t => 0 < t.pnl).length : ℚ) / trades.length

end DataLoader

namespace Metrics

/-- The record built by `DashboardMetrics.get_portfolio_summary` (`metrics.py`
lines 27-33 and 50-57).  The two branches of the source carry different key
sets: `unrealized_pnl` appears only in the missing-file record, while
`initial_capital` and `positions` appear only in the file-present record;
`Option` fields with `none` model the absent keys. -/
structure PortfolioSummary where
  total_equity : ℚ
  cash : ℚ
  positions_value : ℚ
  total_return_pct : ℚ
  unrealized_pnl : Option ℚ
  initial_capital : Option ℚ
  positions : Option (List (String × Position))
deriving DecidableEq

/-- `DashboardMetrics.get_portfolio_summary` (`metrics.py` lines 22-57).
`none` models the absent `portfolio_state.json` (lines 26-33); note that the
`cash` default is `initial` and the position value uses
`p.get('current_price', 0)` with no `avg_price` fallback. -/
def get_portfolio_summary (state? : Option PortfolioState) : PortfolioSummary :=
  match state? with
  | none =>
    -- lines 27-33: all monetary fields are 0
    ⟨0, 0, 0, 0, some 0, none, none⟩
  | some state =>
    let initial := state.initial_capital.getD 100000
    let cash := state.cash.getD initial
    let positions := state.positions
    let positions_value :=
      (positions.map fun pr => pr.2.quantity.getD 0 * pr.2.current_price.getD 0).sum
    let total_equity := cash + positions_value
    ⟨total_equity, cash, positions_value,
      if 0 < initial then (total_equity / initial - 1) * 100 else 0,
      none, some initial, some positions⟩

/-- The record built by `DashboardMetrics.get_trade_statistics` (`metrics.py`
lines 59-112).  `closed_trades`, `best_trade` and `worst_trade` appear only in
the record of the final branch (lines 102-112); `none` models the absent key. -/
structure TradeStats where
  total_trades : ℕ
  closed_trades : Option ℕ
  winning_trades : ℕ
  losing_trades : ℕ
  win_rate : ℚ
  total_pnl : ℚ
  avg_pnl : ℚ
  best_trade : Option ℚ
  worst_trade : Option ℚ
deriving DecidableEq

/-- `DashboardMetrics.get_trade_statistics` (`metrics.py` lines 59-112), taking
the decoded `trade_history.json` list as input (the empty list models both the
absent file, lines 63-71, and an empty list in the file, lines 76-84).
`closed_trades = [t for t in trades if t.get('action') == 'SELL']`;
`win_rate = winning / len(closed_trades) * 100` — a PERCENTAGE. -/
def get_trade_statistics (trades : List Trade) : TradeStats :=
  if trades = [] then ⟨0, none, 0, 0, 0, 0, 0, none, none⟩
  else
    let closed := trades.filter fun t => t.action = "SELL"
    if closed = [] then
      -- lines 88-96: SELL-free history
      ⟨trades.length, none, 0, 0, 0, 0, 0, none, none⟩
    else
      let pnls := closed.map fun t => t.pnl
      let winning := (pnls.filter fun p => 0 < p).length
      let losing := (pnls.filter fun p => p < 0).length
      ⟨trades.length, some closed.length, winning, losing,
        (winning : ℚ) / closed.length * 100,
        pnls.sum,
        pnls.sum / pnls.length,  -- np.mean over the non-empty pnl list
        some (pnls.foldl max pnls.headI),  -- max(pnls)
        some (pnls.foldl min pnls.headI)⟩  -- min(pnls)

/-- `DashboardMetrics.calculate_sharpe_ratio` (`metrics.py` lines 114-120).
Guard: `returns.empty or len(returns) < 2 or returns.std() == 0 → 0.0`;
`returns.empty` implies `len < 2`, and `len < 2` is exactly
`sampleVar? returns = none`; otherwise
`(mean·252 - risk_free_rate) / (σ·√252) = (252·mean - rfr) / √(252·v)`. -/
def calculate_sharpe_ratio (returns : List ℚ) (risk_free_rate : ℚ) : MVal :=
  match sampleVar? returns with
  | none => .num 0
  | some v =>
    if v = 0 then .num 0
    else .sqrtRatio (252 * seriesMean returns - risk_free_rate) (252 * v)

/-- The per-point drawdowns `(e / m' - 1) * 100` of
`DashboardMetrics.calculate_max_drawdown` (`metrics.py` lines 126-127), `m'`
being the running maximum (`equity_curve.cummax()`) seeded with `m`. -/
def drawdownsFrom (m : ℚ) : List ℚ → List ℚ
  | [] => []
  | e :: rest =>
    let m' := max m e
    (e / m' - 1) * 100 :: drawdownsFrom m' rest

/-- The full percentage drawdown series of an equity curve. -/
def drawdown_list : List ℚ → List ℚ
  | [] => []
  | e :: rest => drawdownsFrom e (e :: rest)

/-- `DashboardMetrics.calculate_max_drawdown` (`metrics.py` lines 122-128):
0 on an empty curve, otherwise the minimum of `(equity / cummax - 1) * 100`. -/
def calculate_max_drawdown (equity_curve : List ℚ) : ℚ :=
  match drawdown_list equity_curve with
  | [] => 0
  | d :: ds => ds.foldl min d

/-- The record built by `DashboardMetrics.get_performance_metrics` (`metrics.py`
lines 169-177 and 199-207; both branches carry the same seven keys, and no
`calmar_ratio` key). -/
structure PerformanceMetrics where
  sharpe_ratio : MVal
  sortino_ratio : MVal
  max_drawdown : ℚ
  volatility : MVal
  win_rate : ℚ
  total_return_pct : ℚ
  annual_return_pct : ℝ

/-- The key list of the dict built by `DashboardMetrics.get_performance_metrics`
(`metrics.py` lines 199-207, the same keys as the empty-input record of lines
169-177). -/
def performance_keys : List String :=
  ["sharpe_ratio", "sortino_ratio", "max_drawdown", "volatility", "win_rate",
   "total_return_pct", "annual_return_pct"]

/-- `DashboardMetrics.get_performance_metrics` (`metrics.py` lines 164-207),
taking the decoded daily-returns series (the output of `get_daily_returns`,
which is `pct_change` of the logged equity values) and the decoded trade list.
Faithful oddities of the source kept here:
* `max_drawdown` is the literal constant 0 (line 202);
* `sortino = float('inf')` when there is no negative return (line 186), and 0
  when the downside std is NaN (one point) or 0, since `downside_std > 0` is
  false for both (line 184);
* `volatility = returns.std() * sqrt(252) * 100 = √(252·v·10000)`, NaN on a
  one-point series;
* `win_rate` is the trade-statistics percentage divided by 100 (line 204);
* `total_return = ((1 + returns).prod() - 1) * 100` and
  `annual_return = ((1 + total_return/100) ** (252/n) - 1) * 100`. -/
noncomputable def get_performance_metrics (returns : List ℚ) (trades : List Trade) :
    PerformanceMetrics :=
  if returns = [] then
    -- lines 169-177: the zero-default record
    ⟨.num 0, .num 0, 0, .num 0, 0, 0, 0⟩
  else
    let sharpe := calculate_sharpe_ratio returns (1/50)
    let negative_returns := returns.filter fun r => r < 0
    let sortino : MVal :=
      if negative_returns.length > 0 then
        match sampleVar? negative_returns with
        | none => .num 0  -- downside_std is NaN, `NaN > 0` is false
        | some vd =>
          if 0 < vd then .sqrtRatio (252 * seriesMean returns - 1/50) (252 * vd)
          else .num 0
      else .inf
    let volatility : MVal :=
      match sampleVar? returns with
      | none => .nan
      | some v => .sqrtOf (252 * v * 10000)
    let total_return : ℚ := ((returns.map fun r => 1 + r).prod - 1) * 100
    let trading_days := returns.length
    let annual_return : ℝ :=
      if 0 < trading_days then
        ((1 + (total_return : ℝ) / 100) ^ ((252 : ℝ) / trading_days) - 1) * 100
      else 0
    ⟨sharpe, sortino, 0, volatility,
      (get_trade_statistics trades).win_rate / 100, total_return, annual_return⟩

end Metrics

namespace DataLoader

/-- The record built by `DashboardDataLoader.get_performance_metrics`
(`data_loader.py` lines 69-78, with `calmar_ratio` overwritten at line 81). -/
structure PerformanceMetrics where
  total_return_pct : ℚ
  annual_return_pct : ℝ
  sharpe_ratio : MVal
  sortino_ratio : MVal
  max_drawdown : ℚ
  win_rate : ℚ
  volatility : MVal
  calmar_ratio : ℝ

/-- The key list of the dict built by `DashboardDataLoader.get_performance_metrics`
(`data_loader.py` lines 69-78). -/
def performance_keys : List String :=
  ["total_return_pct", "annual_return_pct", "sharpe_ratio", "sortino_ratio",
   "max_drawdown", "win_rate", "volatility", "calmar_ratio"]

/-- `DashboardDataLoader.get_performance_metrics` (`data_loader.py` lines
60-83), taking the equity curve (the decoded daily logs) and the decoded trade
list.  `none` models the empty dict `{}` returned on an empty curve (line 65).
`returns = equity.pct_change().dropna()`;
`total_return_pct = equity.iloc[-1] / equity.iloc[0] - 1` (a fraction, despite
the name); `volatility = returns.std() * sqrt(252) = √(252·v)`, NaN when the
returns series has fewer than two points; `calmar_ratio` is 0 when
`max_drawdown` is 0 and `annual_return_pct / abs(max_drawdown)` otherwise
(lines 77-81). -/
noncomputable def get_performance_metrics (equity : List ℚ) (trades : List Trade) :
    Option PerformanceMetrics :=
  if equity = [] then none
  else
    let returns := pct_change equity
    let mdd := calculate_max_drawdown equity
    some
      ⟨equity.getLastI / equity.headI - 1,
        annualize_return returns,
        calculate_sharpe returns,
        calculate_sortino returns,
        mdd,
        calculate_win_rate trades,
        (match sampleVar? returns with
          | none => MVal.nan
          | some v => MVal.sqrtOf (252 * v)),
        if mdd ≠ 0 then annualize_return returns / ((|mdd| : ℚ) : ℝ) else 0⟩

/-- The decoded content of `config/risk_params.yaml`, read with `dict.get`
defaults (`data_loader.py` lines 172, 174, 176). -/
structure RiskConfig where
  max_portfolio_exposure : Option ℚ
  max_positions : Option ℕ
  max_drawdown_alert : Option ℚ
deriving DecidableEq

/-- The record built by `DashboardDataLoader.get_risk_status`
(`data_loader.py` lines 170-177). -/
structure RiskStatus where
  portfolio_exposure : ℚ
  max_exposure : ℚ
  num_positions : ℕ
  max_positions : ℕ
  current_drawdown : ℚ
  max_drawdown_limit : ℚ
deriving DecidableEq

/-- `DashboardDataLoader.get_risk_status` (`data_loader.py` lines 154-177),
taking the decoded portfolio state, the 90-day equity curve and the decoded
risk configuration.  `portfolio_exposure = invested / total_equity` only when
`total_equity > 0`, else 0 (line 171); `current_drawdown` is the absolute value
of `(current - peak) / peak` over the curve, 0 on an empty curve or a
non-positive peak (lines 164-168, 175). -/
def get_risk_status (state? : Option PortfolioState) (equity : List ℚ)
    (cfg : RiskConfig) : RiskStatus :=
  let portfolio := get_portfolio_status state?
  let total_equity := portfolio.total_equity
  let invested := portfolio.invested
  let num_positions := portfolio.positions.length
  let current_drawdown : ℚ :=
    if equity = [] then 0
    else
      let peak := equity.foldl max equity.headI
      let current := equity.getLastI
      if 0 < peak then (current - peak) / peak else 0
  ⟨if 0 < total_equity then invested / total_equity else 0,
    cfg.max_portfolio_exposure.getD (1/2),
    num_positions,
    cfg.max_positions.getD 3,
    |current_drawdown|,
    cfg.max_drawdown_alert.getD (3/20)⟩

end DataLoader

/-! ## Shared evaluation lemmas -/

/-- The returns series of the specification's scenario-1 equity curve. -/
theorem pct_change_scenario1 :
    pct_change [100000, 105000, 95000, 110000] = [1/20, -2/21, 3/19] := by
  simp [pct_change]
  norm_num

/-- Claim C1: the spec says the `max_drawdown` field of the performance-metrics
result is the minimum of `(equity[i] - running_max) / running_max`, i.e. `-2/21
≈ -0.0952` for the equity series `[100000, 105000, 95000, 110000]`.  The
data-loader's `_calculate_max_drawdown` does compute this (first two
conjuncts), and the `DashboardMetrics` class even owns a helper computing its
percentage form `-200/21` (fourth conjunct), but
`DashboardMetrics.get_performance_metrics` reports the hardcoded constant 0 for
this very series (third conjunct), contradicting the specified value (last
conjunct). -/
theorem C1_code_bug_evidence :
    DataLoader.calculate_max_drawdown [100000, 105000, 95000, 110000] = -2/21
    ∧ DataLoader.calculate_max_drawdown [] = 0
    ∧ (Metrics.get_performance_metrics
        (pct_change [100000, 105000, 95000, 110000]) []).max_drawdown = 0
    ∧ Metrics.calculate_max_drawdown [100000, 105000, 95000, 110000] = -200/21
    ∧ ((-2 : ℚ)/21) ≠ 0 := by
  refine ⟨?_, rfl, ?_, ?_, by norm_num⟩
  · simp [DataLoader.calculate_max_drawdown, DataLoader.drawdown_list,
      DataLoader.drawdownsFrom]
    norm_num
  · rw [pct_change_scenario1]
    simp [Metrics.get_performance_metrics]
  · simp [Metrics.calculate_max_drawdown, Metrics.drawdown_list,
      Metrics.drawdownsFrom]
    norm_num

/-- Claim C5: on empty equity data and an empty trade list, each metrics
computation returns its defined fallback without raising:
`DashboardDataLoader.get_performance_metrics` returns the empty record `{}`
(modelled `none`), `DashboardMetrics.get_performance_metrics` returns its
seven-field all-zero record, and `DashboardMetrics.get_trade_statistics`
returns its six-field all-zero record (the three `none` fields model the keys
that this branch of the source does not emit). -/
theorem C5_confirmed_zero_defaults :
    DataLoader.get_performance_metrics [] [] = none
    ∧ Metrics.get_performance_metrics [] [] =
        ⟨.num 0, .num 0, 0, .num 0, 0, 0, 0⟩
    ∧ Metrics.get_trade_statistics [] = ⟨0, none, 0, 0, 0, 0, 0, none, none⟩ :=
  ⟨rfl, rfl, rfl⟩

/-- Claim C10: with `portfolio_state.json` absent,
`DashboardDataLoader.get_portfolio_status` falls back to the initial-capital
record (total_equity = 100000, cash = 100000, total_return_pct = 0) while
`DashboardMetrics.get_portfolio_summary` falls back to the all-zero record, so
the two public missing-portfolio fallbacks disagree (e.g. on `total_equity`). -/
theorem C10_confirmed_fallbacks :
    DataLoader.get_portfolio_status none = ⟨100000, 100000, 0, [], 0, 100000⟩
    ∧ Metrics.get_portfolio_summary none = ⟨0, 0, 0, 0, some 0, none, none⟩
    ∧ (DataLoader.get_portfolio_status none).total_equity ≠
        (Metrics.get_portfolio_summary none).total_equity :=
  ⟨rfl, rfl, by norm_num [DataLoader.get_portfolio_status, Metrics.get_portfolio_summary]⟩

/-- Claim C7: `DashboardDataLoader._annualize_return` returns 0 on the empty
returns series, and on a non-empty series of length `n` returns
`(1 + total_return) ^ (252 / n) - 1` where `total_return` is the product of
`(1 + r)` over all returns, minus 1. -/
theorem C7_confirmed_annualization (returns : List ℚ) :
    (returns = [] → DataLoader.annualize_return returns = 0)
    ∧ (returns ≠ [] →
        DataLoader.annualize_return returns =
          (1 + (((returns.map fun r => 1 + r).prod - 1 : ℚ) : ℝ)) ^
              ((252 : ℝ) / returns.length) - 1) := by
  constructor
  · intro h
    simp only [DataLoader.annualize_return, if_pos h]
  · intro h
    simp only [DataLoader.annualize_return, if_neg h]
    rw [if_neg fun hh => h (List.length_eq_zero.mp hh)]

/-- Witness for C7: the annualization theorem applied to the empty series and
to the concrete one-point series `[1]` (a single 100% return). -/
theorem C7_confirmed_annualization_witness :
    DataLoader.annualize_return [] = 0
    ∧ DataLoader.annualize_return [1] =
        (1 + (((([1] : List ℚ).map fun r => 1 + r).prod - 1 : ℚ) : ℝ)) ^
            ((252 : ℝ) / ([1] : List ℚ).length) - 1 :=
  ⟨(C7_confirmed_annualization []).1 rfl,
   (C7_confirmed_annualization [1]).2 (by decide)⟩

/-- Pointwise relation between the two drawdown series: on positive data the
percentage drawdowns of `DashboardMetrics` are 100 times the fractional
drawdowns of `DashboardDataLoader`. -/
theorem drawdownsFrom_eq_map (l : List ℚ) : ∀ m : ℚ, 0 < m → (∀ x ∈ l, 0 < x) →
    Metrics.drawdownsFrom m l =
      (DataLoader.drawdownsFrom m l).map fun d => 100 * d := by
  induction l with
  | nil => intro m _ _; rfl
  | cons e rest ih =>
    intro m hm hl
    have hm' : 0 < max m e := lt_max_of_lt_left hm
    have hm'0 : max m e ≠ 0 := ne_of_gt hm'
    simp only [Metrics.drawdownsFrom, DataLoader.drawdownsFrom, List.map_cons,
      List.cons.injEq]
    refine ⟨by field_simp; ring, ih (max m e) hm' fun x hx => hl x (List.mem_cons_of_mem e hx)⟩

/-- Folding `min` over a list scaled by the nonnegative constant 100 scales the
result by 100. -/
theorem foldl_min_map_hundred (l : List ℚ) : ∀ a : ℚ,
    (l.map fun d => 100 * d).foldl min (100 * a) = 100 * l.foldl min a := by
  induction l with
  | nil => intro a; rfl
  | cons b rest ih =>
    intro a
    simp only [List.map_cons, List.foldl_cons]
    rw [← mul_min_of_nonneg a b (by norm_num : (0:ℚ) ≤ 100)]
    exact ih (min a b)

/-- Claim C9: on every positive equity series the percentage drawdown of
`DashboardMetrics.calculate_max_drawdown` is exactly 100 times the fraction
returned by `DashboardDataLoader._calculate_max_drawdown`, and the two
implementations differ as functions (shown on the scenario-1 series, where
they return `-200/21` and `-2/21`). -/
theorem C9_confirmed_hundredfold :
    (∀ equity : List ℚ, (∀ x ∈ equity, 0 < x) →
      Metrics.calculate_max_drawdown equity =
        100 * DataLoader.calculate_max_drawdown equity)
    ∧ Metrics.calculate_max_drawdown [100000, 105000, 95000, 110000] ≠
        DataLoader.calculate_max_drawdown [100000, 105000, 95000, 110000] := by
  constructor
  · intro equity h
    cases equity with
    | nil => norm_num [Metrics.calculate_max_drawdown, DataLoader.calculate_max_drawdown,
        Metrics.drawdown_list, DataLoader.drawdown_list]
    | cons e rest =>
      have he : 0 < e := h e (List.mem_cons_self e rest)
      have hmap := drawdownsFrom_eq_map (e :: rest) e he h
      simp only [Metrics.calculate_max_drawdown, DataLoader.calculate_max_drawdown,
        Metrics.drawdown_list, DataLoader.drawdown_list, hmap]
      rw [show DataLoader.drawdownsFrom e (e :: rest) =
            (e - max e e) / max e e :: DataLoader.drawdownsFrom (max e e) rest from rfl]
      simp only [List.map_cons]
      exact foldl_min_map_hundred _ _
  · have h1 : Metrics.calculate_max_drawdown [100000, 105000, 95000, 110000] = -200/21 := by
      simp [Metrics.calculate_max_drawdown, Metrics.drawdown_list, Metrics.drawdownsFrom]
      norm_num
    have h2 : DataLoader.calculate_max_drawdown [100000, 105000, 95000, 110000] = -2/21 := by
      simp [DataLoader.calculate_max_drawdown, DataLoader.drawdown_list,
        DataLoader.drawdownsFrom]
      norm_num
    rw [h1, h2]
    norm_num

/-- Witness for C9: the hundredfold relation discharged on the concrete
scenario-1 equity series, whose points are all positive. -/
theorem C9_confirmed_hundredfold_witness :
    Metrics.calculate_max_drawdown [100000, 105000, 95000, 110000] =
      100 * DataLoader.calculate_max_drawdown [100000, 105000, 95000, 110000]
    ∧ Metrics.calculate_max_drawdown [100000, 105000, 95000, 110000] ≠
        DataLoader.calculate_max_drawdown [100000, 105000, 95000, 110000] :=
  ⟨C9_confirmed_hundredfold.1 [100000, 105000, 95000, 110000] (by decide),
   C9_confirmed_hundredfold.2⟩

/-- Characterization of the `win_rate` field of
`DashboardMetrics.get_trade_statistics`: a SELL-only win PERCENTAGE. -/
theorem metrics_win_rate_eq (trades : List Trade) :
    (Metrics.get_trade_statistics trades).win_rate =
      if trades.filter (fun t => t.action = "SELL") = [] then 0
      else (((trades.filter fun t => t.action = "SELL").filter
                fun t => 0 < t.pnl).length : ℚ) /
             ((trades.filter fun t => t.action = "SELL").length : ℚ) * 100 := by
  by_cases h0 : trades = []
  · subst h0
    simp [Metrics.get_trade_statistics]
  · by_cases hc : trades.filter (fun t => t.action = "SELL") = []
    · simp [Metrics.get_trade_statistics, h0, hc]
    · simp only [Metrics.get_trade_statistics, if_neg h0, if_neg hc]
      rw [List.filter_map]
      simp [Function.comp]

/-- Claim C2 (counterexample): on the trade list
`[{action BUY, pnl 0}, {action SELL, pnl 3000}]` the claim's value is
`count(pnl > 0 among SELL) / count(SELL) = 1/1 = 1`, but
`DashboardDataLoader._calculate_win_rate` returns `1/2`: the BUY trade is NOT
excluded from its denominator. -/
theorem C2_counterexample :
    DataLoader.calculate_win_rate [⟨"BUY", 0⟩, ⟨"SELL", 3000⟩] = 1/2
    ∧ ((1 : ℚ)/2) ≠ 1 := by
  constructor
  · norm_num [DataLoader.calculate_win_rate, List.filter]
    decide
  · norm_num

/-- Claim C2 (amended): `DashboardDataLoader._calculate_win_rate` equals
`count(pnl > 0 over ALL trades) / count(all trades)` (BUY trades included in the
denominator), is 0 on the empty list, and lies in `[0, 1]`;
`DashboardMetrics.get_trade_statistics` reports `win_rate` as the PERCENTAGE
`count(pnl > 0 among SELL) / count(SELL) * 100`, 0 when there is no SELL trade,
and it lies in `[0, 100]`. -/
theorem C2_corrected_win_rate (trades : List Trade) :
    (0 ≤ DataLoader.calculate_win_rate trades
      ∧ DataLoader.calculate_win_rate trades ≤ 1)
    ∧ (trades ≠ [] →
        DataLoader.calculate_win_rate trades =
          ((trades.filter fun t => 0 < t.pnl).length : ℚ) / trades.length)
    ∧ ((Metrics.get_trade_statistics trades).win_rate =
        if trades.filter (fun t => t.action = "SELL") = [] then 0
        else (((trades.filter fun t => t.action = "SELL").filter
                  fun t => 0 < t.pnl).length : ℚ) /
               ((trades.filter fun t => t.action = "SELL").length : ℚ) * 100)
    ∧ (0 ≤ (Metrics.get_trade_statistics trades).win_rate
        ∧ (Metrics.get_trade_statistics trades).win_rate ≤ 100) := by
  refine ⟨?_, ?_, metrics_win_rate_eq trades, ?_⟩
  · unfold DataLoader.calculate_win_rate
    split
    · norm_num
    · rename_i h
      have hlen : 0 < (trades.length : ℚ) := by
        exact_mod_cast List.length_pos.mpr h
      constructor
      · positivity
      · rw [div_le_one hlen]
        exact_mod_cast List.length_filter_le _ _
  · intro h
    unfold DataLoader.calculate_win_rate
    rw [if_neg h]
  · rw [metrics_win_rate_eq trades]
    split
    · norm_num
    · rename_i hc
      have hlen : 0 < ((trades.filter fun t => t.action = "SELL").length : ℚ) := by
        exact_mod_cast List.length_pos.mpr hc
      constructor
      · positivity
      · have hle : (((trades.filter fun t => t.action = "SELL").filter
            fun t => 0 < t.pnl).length : ℚ) /
            ((trades.filter fun t => t.action = "SELL").length : ℚ) ≤ 1 := by
          rw [div_le_one hlen]
          exact_mod_cast List.length_filter_le _ _
        calc _ ≤ (1 : ℚ) * 100 := by
              apply mul_le_mul_of_nonneg_right hle
              norm_num
          _ = 100 := by norm_num

/-- Witness for C2 (amended): the statement discharged on the two-trade list of
the counterexample (one BUY with pnl 0, one winning SELL): the loader reports
`1/2`, the metrics class reports the percentage `100`. -/
theorem C2_corrected_win_rate_witness :
    DataLoader.calculate_win_rate [⟨"BUY", 0⟩, ⟨"SELL", 3000⟩] =
      ((([⟨"BUY", 0⟩, ⟨"SELL", 3000⟩] : List Trade).filter
          fun t => 0 < t.pnl).length : ℚ) /
        ([⟨"BUY", 0⟩, ⟨"SELL", 3000⟩] : List Trade).length
    ∧ 0 ≤ (Metrics.get_trade_statistics [⟨"BUY", 0⟩, ⟨"SELL", 3000⟩]).win_rate :=
  ⟨(C2_corrected_win_rate [⟨"BUY", 0⟩, ⟨"SELL", 3000⟩]).2.1 (by decide),
   (C2_corrected_win_rate [⟨"BUY", 0⟩, ⟨"SELL", 3000⟩]).2.2.2.1⟩

/-- Claim C3 (counterexample): the returns series `[1]` contains no negative
return, so the claim demands the +infinity sentinel, but
`DashboardDataLoader._calculate_sortino` returns 0 (it has no infinity branch
at all). -/
theorem C3_counterexample :
    DataLoader.calculate_sortino [1] = MVal.num 0 ∧ MVal.num 0 ≠ MVal.inf := by
  constructor
  · norm_num [DataLoader.calculate_sortino, List.filter]
  · decide

/-- Claim C3 (amended): in `DashboardMetrics.get_performance_metrics` the
`sortino_ratio` field is the +infinity sentinel iff the returns series is
non-empty and contains no negative return (the empty series takes the all-zero
default record instead), and it is 0 whenever the downside subset is non-empty
with zero-or-undefined (NaN) sample standard deviation;
`DashboardDataLoader._calculate_sortino`, in contrast, returns 0 whenever there
is no negative return and never returns the infinity sentinel. -/
theorem C3_corrected_sortino (returns : List ℚ) (trades : List Trade) :
    ((Metrics.get_performance_metrics returns trades).sortino_ratio = MVal.inf
        ↔ (returns ≠ [] ∧ returns.filter (fun r => r < 0) = []))
    ∧ ((returns.filter (fun r => r < 0) ≠ [] ∧
          (sampleVar? (returns.filter fun r => r < 0) = none ∨
            sampleVar? (returns.filter fun r => r < 0) = some 0)) →
        (Metrics.get_performance_metrics returns trades).sortino_ratio = MVal.num 0)
    ∧ (returns.filter (fun r => r < 0) = [] →
        DataLoader.calculate_sortino returns = MVal.num 0)
    ∧ DataLoader.calculate_sortino returns ≠ MVal.inf := by
  by_cases hret : returns = []
  · subst hret
    exact ⟨by simp [Metrics.get_performance_metrics],
      fun h => absurd (by simp) h.1, fun _ => rfl,
      by simp [DataLoader.calculate_sortino]⟩
  · by_cases hneg : returns.filter (fun r => r < 0) = []
    · refine ⟨?_, fun h => absurd hneg h.1, ?_, ?_⟩
      · simp [Metrics.get_performance_metrics, hret, hneg]
      · intro _
        simp [DataLoader.calculate_sortino, hret, hneg]
      · simp [DataLoader.calculate_sortino, hret, hneg]
    · have hlen : 0 < (returns.filter fun r => r < 0).length :=
        List.length_pos.mpr hneg
      refine ⟨?_, ?_, fun h => absurd h hneg, ?_⟩
      · rcases hv : sampleVar? (returns.filter fun r => r < 0) with _ | vd
        · simp [Metrics.get_performance_metrics, hret, hneg, hlen, hv]
        · by_cases hvd : 0 < vd
          · simp [Metrics.get_performance_metrics, hret, hneg, hlen, hv, hvd]
          · simp [Metrics.get_performance_metrics, hret, hneg, hlen, hv, hvd]
      · rintro ⟨-, hcase | hcase⟩
        · simp [Metrics.get_performance_metrics, hret, hlen, hcase]
        · simp [Metrics.get_performance_metrics, hret, hlen, hcase]
      · rcases hv : sampleVar? (returns.filter fun r => r < 0) with _ | vd
        · simp [DataLoader.calculate_sortino, hret, hneg, hv]
        · by_cases hvd : vd = 0
          · simp [DataLoader.calculate_sortino, hret, hneg, hv, hvd]
          · simp [DataLoader.calculate_sortino, hret, hneg, hv, hvd]

/-- Witness for C3 (amended): the infinity direction on `[1, 2]` (no downside),
the zero case on `[-1, 1]` (a single downside point, NaN downside std), and the
loader's behaviour on the downside-free `[1]` and on `[-1]`. -/
theorem C3_corrected_sortino_witness :
    (Metrics.get_performance_metrics [1, 2] []).sortino_ratio = MVal.inf
    ∧ (Metrics.get_performance_metrics [-1, 1] []).sortino_ratio = MVal.num 0
    ∧ DataLoader.calculate_sortino [1] = MVal.num 0
    ∧ DataLoader.calculate_sortino [-1] ≠ MVal.inf :=
  ⟨(C3_corrected_sortino [1, 2] []).1.mpr ⟨by decide, by decide⟩,
   (C3_corrected_sortino [-1, 1] []).2.1 ⟨by decide, Or.inl (by decide)⟩,
   (C3_corrected_sortino [1] []).2.2.1 (by decide),
   (C3_corrected_sortino [-1] []).2.2.2⟩

/-- Claim C4 (counterexample): on the one-point returns series `[1]` (fewer
than 2 points) the claim demands 0, but `DashboardDataLoader._calculate_sharpe`
has no fewer-than-2-points guard: the NaN standard deviation fails the `== 0`
test and NaN propagates to the result. -/
theorem C4_counterexample :
    DataLoader.calculate_sharpe [1] = MVal.nan ∧ MVal.nan ≠ MVal.num 0 := by
  constructor
  · simp [DataLoader.calculate_sharpe, sampleVar?]
  · decide

/-- Claim C4 (amended): `DashboardMetrics.calculate_sharpe_ratio` returns 0
whenever the returns series is empty, has fewer than 2 points, or has zero
sample standard deviation; `DashboardDataLoader._calculate_sharpe` returns 0
when the series is empty or its sample standard deviation is exactly zero, but
on a one-point series (standard deviation NaN, not 0) it returns NaN instead
of 0. -/
theorem C4_corrected_sharpe (returns : List ℚ) (rfr : ℚ) :
    ((returns = [] ∨ returns.length < 2 ∨ sampleVar? returns = some 0) →
        Metrics.calculate_sharpe_ratio returns rfr = MVal.num 0)
    ∧ ((returns = [] ∨ sampleVar? returns = some 0) →
        DataLoader.calculate_sharpe returns = MVal.num 0)
    ∧ (returns.length = 1 → DataLoader.calculate_sharpe returns = MVal.nan) := by
  refine ⟨?_, ?_, ?_⟩
  · rintro (h | h | h)
    · subst h; rfl
    · have hv : sampleVar? returns = none := by simp [sampleVar?, h]
      simp [Metrics.calculate_sharpe_ratio, hv]
    · simp [Metrics.calculate_sharpe_ratio, h]
  · rintro (h | h)
    · subst h; rfl
    · by_cases h0 : returns = []
      · subst h0; rfl
      · simp [DataLoader.calculate_sharpe, h0, h]
  · intro h
    have h0 : returns ≠ [] := by
      intro hh
      rw [hh] at h
      simp at h
    have hv : sampleVar? returns = none := by simp [sampleVar?, h]
    simp [DataLoader.calculate_sharpe, h0, hv]

/-- Witness for C4 (amended): the guards discharged on the empty series and the
one-point series `[1]`. -/
theorem C4_corrected_sharpe_witness :
    Metrics.calculate_sharpe_ratio [1] (1/50) = MVal.num 0
    ∧ DataLoader.calculate_sharpe [] = MVal.num 0
    ∧ DataLoader.calculate_sharpe [1] = MVal.nan :=
  ⟨(C4_corrected_sharpe [1] (1/50)).1 (Or.inr (Or.inl (by decide))),
   (C4_corrected_sharpe [] (1/50)).2.1 (Or.inl rfl),
   (C4_corrected_sharpe [1] (1/50)).2.2 (by decide)⟩

/-- Claim C6 (counterexample): the dict built by
`DashboardMetrics.get_performance_metrics` carries no `calmar_ratio` key at
all, so the claimed eight-field result shape fails for it. -/
theorem C6_counterexample : "calmar_ratio" ∉ Metrics.performance_keys := by
  decide

/-- Claim C6 (amended): the performance-metrics record of
`DashboardDataLoader.get_performance_metrics` carries exactly the eight claimed
fields, with `calmar_ratio = annual_return_pct / |max_drawdown|` and 0 when
`max_drawdown` is 0; the record of `DashboardMetrics.get_performance_metrics`
carries only seven fields, with no `calmar_ratio` among them. -/
theorem C6_corrected_calmar (equity : List ℚ) (trades : List Trade)
    (h : equity ≠ []) :
    ∃ p, DataLoader.get_performance_metrics equity trades = some p
      ∧ p.calmar_ratio =
          (if p.max_drawdown = 0 then 0
            else p.annual_return_pct / ((|p.max_drawdown| : ℚ) : ℝ))
      ∧ DataLoader.performance_keys =
          ["total_return_pct", "annual_return_pct", "sharpe_ratio",
            "sortino_ratio", "max_drawdown", "win_rate", "volatility",
            "calmar_ratio"]
      ∧ "calmar_ratio" ∉ Metrics.performance_keys := by
  simp only [DataLoader.get_performance_metrics, if_neg h]
  exact ⟨_, rfl, by rw [ite_not], rfl, by decide⟩

/-- Witness for C6 (amended): the record shape discharged on the concrete
two-point equity curve `[100000, 90000]`. -/
theorem C6_corrected_calmar_witness :
    ∃ p, DataLoader.get_performance_metrics [100000, 90000] [] = some p
      ∧ p.calmar_ratio =
          (if p.max_drawdown = 0 then 0
            else p.annual_return_pct / ((|p.max_drawdown| : ℚ) : ℝ))
      ∧ DataLoader.performance_keys =
          ["total_return_pct", "annual_return_pct", "sharpe_ratio",
            "sortino_ratio", "max_drawdown", "win_rate", "volatility",
            "calmar_ratio"]
      ∧ "calmar_ratio" ∉ Metrics.performance_keys :=
  C6_corrected_calmar [100000, 90000] [] (by decide)

/-- Claim C8: through `DashboardDataLoader.get_risk_status` the
`portfolio_exposure` field equals `invested / total_equity` when
`total_equity > 0` and 0 otherwise, where `total_equity = cash + invested`;
when every position carries a `current_price`, the invested value is exactly
`Σ quantity × current_price`; and on the spec's scenario-4 portfolio
(cash 50000, one position of 100 shares at current price 500, initial capital
100000) the exposure is `1/2`. -/
theorem C8_confirmed_exposure :
    (∀ (state : PortfolioState) (equity : List ℚ) (cfg : DataLoader.RiskConfig),
      (DataLoader.get_risk_status (some state) equity cfg).portfolio_exposure =
        if 0 < state.cash.getD 100000 + DataLoader.invested_value state.positions
        then DataLoader.invested_value state.positions /
              (state.cash.getD 100000 + DataLoader.invested_value state.positions)
        else 0)
    ∧ (∀ ps : List (String × Position), (∀ pr ∈ ps, pr.2.current_price ≠ none) →
        DataLoader.invested_value ps =
          (ps.map fun pr => pr.2.quantity.getD 0 * pr.2.current_price.getD 0).sum)
    ∧ (DataLoader.get_risk_status
          (some ⟨some 50000, [("A", ⟨some 100, none, some 500⟩)], some 100000⟩)
          [] ⟨none, none, none⟩).portfolio_exposure = 1/2 := by
  refine ⟨fun state equity cfg => rfl, ?_, ?_⟩
  · intro ps h
    induction ps with
    | nil => rfl
    | cons pr rest ih =>
      simp only [DataLoader.invested_value, List.map_cons, List.sum_cons] at ih ⊢
      have hcp := h pr (List.mem_cons_self pr rest)
      rcases hpr : pr.2.current_price with _ | c
      · exact absurd hpr hcp
      · simp only [Option.getD_some]
        rw [ih fun x hx => h x (List.mem_cons_of_mem pr hx)]
  · norm_num [DataLoader.get_risk_status, DataLoader.get_portfolio_status,
      DataLoader.invested_value]

/-- Witness for C8: the exposure formula and the position-sum formula
discharged on the concrete scenario-4 portfolio. -/
theorem C8_confirmed_exposure_witness :
    (DataLoader.get_risk_status
        (some ⟨some 50000, [("A", ⟨some 100, none, some 500⟩)], some 100000⟩)
        [] ⟨none, none, none⟩).portfolio_exposure =
      (if 0 < (some (50000:ℚ)).getD 100000 +
            DataLoader.invested_value [("A", ⟨some 100, none, some 500⟩)]
        then DataLoader.invested_value [("A", ⟨some 100, none, some 500⟩)] /
              ((some (50000:ℚ)).getD 100000 +
                DataLoader.invested_value [("A", ⟨some 100, none, some 500⟩)])
        else 0)
    ∧ DataLoader.invested_value [("A", ⟨some 100, none, some 500⟩)] =
        (([("A", (⟨some 100, none, some 500⟩ : Position))]).map
          fun pr => pr.2.quantity.getD 0 * pr.2.current_price.getD 0).sum :=
  ⟨C8_confirmed_exposure.1 ⟨some 50000, [("A", ⟨some 100, none, some 500⟩)], some 100000⟩
      [] ⟨none, none, none⟩,
   C8_confirmed_exposure.2.1 [("A", ⟨some 100, none, some 500⟩)]
      (by decide)⟩
